import Mathlib

/-!
Verification of the voice-note recording service
(src/services/voice-note-service.ts) against its design document.

The service is a three-state recording session (idle, recording,
processing) driving a two-stage remote pipeline (transcription, then
note composition) followed by delivery of the composed note into the
active editor. We embed the service as pure Lean functions over an
explicit state record plus environment records describing the remote
responses, the settings reads and the host surface, and prove the
claimed properties of the state machine and the pipeline stages.
-/

namespace VoiceNote

/-- Settings record, as in src/settings.ts (interface VoiceNoteSettings). -/
structure VoiceNoteSettings where
  apiKey : String
  transcriptionModel : String
  noteModel : String
  notePrompt : String
deriving Repr, DecidableEq

/-- The recording state union type from voice-note-service.ts line 4. -/
inductive RecordingState where
  | idle
  | recording
  | processing
deriving Repr, DecidableEq

/-- Classified pipeline failures. The code throws plain Error values;
the design document classifies them into five kinds, which we attach to
the thrown message text. -/
inductive PipelineError where
  | capabilityUnavailable (msg : String)
  | configurationMissing (msg : String)
  | remoteCallFailed (msg : String)
  | emptyResult (msg : String)
  | noEditableTarget (msg : String)
deriving Repr, DecidableEq

/-- The message carried by a thrown error (the code surfaces
error.message in a notice). -/
def PipelineError.message : PipelineError → String
  | .capabilityUnavailable m => m
  | .configurationMissing m => m
  | .remoteCallFailed m => m
  | .emptyResult m => m
  | .noEditableTarget m => m

/-- Transport-level plus parsed view of the transcription response:
ok mirrors response.ok, bodyText mirrors response.text(), and text
mirrors the optional text field of the parsed JSON body. -/
structure TranscriptionResponse where
  ok : Bool
  bodyText : String
  text : Option String
deriving Repr, DecidableEq

/-- Transport-level plus parsed view of the chat-completion response:
content mirrors the optional chain choices[0].message.content. -/
structure CompletionResponse where
  ok : Bool
  bodyText : String
  content : Option String
deriving Repr, DecidableEq

/-- One message of the chat request body (role, content). -/
structure ChatMessage where
  role : String
  content : String
deriving Repr, DecidableEq

/-- The JSON body of the note-composition request, with the optional
temperature field (voice-note-service.ts lines 164-178). -/
structure ChatRequestBody where
  model : String
  messages : List ChatMessage
  temperature : Option ℚ
deriving Repr, DecidableEq

/-- Embedding of the JavaScript String.prototype.toLowerCase method
over the character list of the string (the identifiers in play are
ASCII, where Char.toLower agrees with the JavaScript lowering). -/
def jsToLower (s : String) : String :=
  ⟨s.data.map Char.toLower⟩

/-- Embedding of the JavaScript String.prototype.trim method: drop
whitespace from both ends of the string. -/
def jsTrim (s : String) : String :=
  ⟨((s.data.dropWhile Char.isWhitespace).reverse.dropWhile Char.isWhitespace).reverse⟩

/-- supportsTemperature from voice-note-service.ts lines 220-223:
the trimmed, lowercased model id must differ from "gpt-5-mini". -/
def supportsTemperature (model : String) : Bool :=
  jsToLower (jsTrim model) != "gpt-5-mini"

/-- The request body built by generateNote (lines 164-178): system
message is the configured note instruction, user message wraps the
transcript, temperature 0.2 is set only when supportsTemperature. -/
def buildChatBody (settings : VoiceNoteSettings) (transcript : String) : ChatRequestBody :=
  { model := settings.noteModel
    messages :=
      [ { role := "system", content := settings.notePrompt }
      , { role := "user", content := "Transcript:\n" ++ transcript } ]
    temperature := if supportsTemperature settings.noteModel then some (0.2 : ℚ) else none }

/-- transcribeAudio (lines 117-153) as a pure function of the settings
read and the transcription response: configuration checks, transport
check surfacing the body text, then the trimmed text field required
non-empty (the trim happens before the emptiness check, so absent and
empty and whitespace-only all fail). -/
def transcribeAudio (settings : VoiceNoteSettings) (resp : TranscriptionResponse) :
    Except PipelineError String :=
  if settings.apiKey = "" then
    .error (.configurationMissing "Add your OpenAI API key in settings.")
  else if settings.transcriptionModel = "" then
    .error (.configurationMissing "Set a transcription model in settings.")
  else if resp.ok = false then
    .error (.remoteCallFailed ("Transcription failed: " ++ resp.bodyText))
  else
    match resp.text with
    | none => .error (.emptyResult "Transcription returned no text.")
    | some t =>
      let trimmed := jsTrim t
      if trimmed = "" then .error (.emptyResult "Transcription returned no text.")
      else .ok trimmed

/-- generateNote (lines 155-203) as a pure function of the settings
read, the transcript and the completion response: configuration checks,
transport check surfacing the body text, then the raw first-choice
content required non-empty BEFORE trimming, and the result trimmed
afterwards. -/
def generateNote (settings : VoiceNoteSettings) (resp : CompletionResponse) :
    Except PipelineError String :=
  if settings.apiKey = "" then
    .error (.configurationMissing "Add your OpenAI API key in settings.")
  else if settings.noteModel = "" then
    .error (.configurationMissing "Set a note creation model in settings.")
  else if resp.ok = false then
    .error (.remoteCallFailed ("Note creation failed: " ++ resp.bodyText))
  else
    match resp.content with
    | none => .error (.emptyResult "Note creation returned no content.")
    | some c =>
      if c = "" then .error (.emptyResult "Note creation returned no content.")
      else .ok (jsTrim c)

/-- The editor surface: text before the cursor, current selection, text
after the cursor. replaceSelection substitutes the selection. -/
structure Editor where
  before : String
  selection : String
  after : String
deriving Repr, DecidableEq

/-- Editor.replaceSelection: the inserted text replaces the current
selection and the cursor ends up after it. -/
def replaceSelection (ed : Editor) (text : String) : Editor :=
  { before := ed.before ++ text, selection := "", after := ed.after }

/-- insertNote (lines 205-213): fails when no markdown view is active,
otherwise replaces the selection with the note text plus one appended
line break. -/
def insertNote (view : Option Editor) (note : String) : Except PipelineError Editor :=
  match view with
  | none => .error (.noEditableTarget "Open a note to insert the transcript.")
  | some ed => .ok (replaceSelection ed (note ++ "\n"))

/-- Environment for one processing attempt: the two getSettings reads
(transcribeAudio at line 118 and generateNote at line 156 each call
getSettings at their start), the two remote responses and the view
available at delivery time. -/
structure PipelineEnv where
  settingsA : VoiceNoteSettings
  settingsB : VoiceNoteSettings
  transcription : TranscriptionResponse
  completion : CompletionResponse
  view : Option Editor
deriving Repr, DecidableEq

/-- The processing attempt body of stopRecording (lines 104-106):
Stage A transcription, then Stage B composition on its text, then
delivery; the first failure aborts the rest. -/
def runPipeline (env : PipelineEnv) : Except PipelineError Editor :=
  match transcribeAudio env.settingsA env.transcription with
  | .error e => .error e
  | .ok transcript =>
    match generateNote env.settingsB env.completion with
    | .error e => .error e
    | .ok note =>
      let _ := transcript
      insertNote env.view note

/-- Modelled from the spec: the pipeline as the design document
describes it, with the PipelineConfig read ONCE at the start of the
stop-and-process cycle and the same values used by both Stage A and
Stage B. The code has no such single-read function; each stage performs
its own getSettings read. -/
def runPipelineSingleRead (settings : VoiceNoteSettings)
    (tr : TranscriptionResponse) (co : CompletionResponse) (view : Option Editor) :
    Except PipelineError Editor :=
  runPipeline { settingsA := settings, settingsB := settings,
                transcription := tr, completion := co, view := view }

/-- The mutable fields of VoiceNoteService (lines 14-16): the current
state, the held media recorder (at most one, an Option field) and the
audio chunk buffer (at most one, a single list field). -/
structure ServiceState where
  state : RecordingState
  mediaRecorder : Option Unit
  chunks : List (List ℕ)
deriving Repr, DecidableEq

/-- Decidable equality of stage outcomes, used to evaluate witnesses. -/
instance {ε α : Type} [DecidableEq ε] [DecidableEq α] : DecidableEq (Except ε α) := fun a b =>
  match a, b with
  | .ok x, .ok y => decidable_of_iff (x = y) (by simp)
  | .error x, .error y => decidable_of_iff (x = y) (by simp)
  | .ok _, .error _ => isFalse (by simp)
  | .error _, .ok _ => isFalse (by simp)

/-- The field defaults of VoiceNoteService: idle, no recorder,
empty buffer. -/
def initialState : ServiceState :=
  { state := .idle, mediaRecorder := none, chunks := [] }

/-- Observable outcome of one event step: the successor state, the
notices emitted during the step, how many pipeline attempts the step
started, and the settled outcome when the step was a pipeline
settlement. -/
structure StepResult where
  next : ServiceState
  notices : List String
  attemptsStarted : ℕ
  settledOutcome : Option (Except PipelineError Editor)
deriving Repr, DecidableEq

/-- A step that changes nothing and emits nothing. -/
def noopResult (s : ServiceState) : StepResult :=
  { next := s, notices := [], attemptsStarted := 0, settledOutcome := none }

/-- startRecording (lines 48-80): when the capture capability is
missing, notify and leave everything unchanged; otherwise acquire the
recorder, reset the chunk buffer, enter the recording state and notify. -/
def startRecordingStep (s : ServiceState) (capabilityAvailable : Bool) : StepResult :=
  if capabilityAvailable = false then
    { next := s, notices := ["Microphone access is not available."],
      attemptsStarted := 0, settledOutcome := none }
  else
    { next := { state := .recording, mediaRecorder := some (), chunks := [] },
      notices := ["Recording started."], attemptsStarted := 0, settledOutcome := none }

/-- The synchronous prefix of stopRecording (lines 82-101): guard on a
held recorder, move to processing, release the recorder, and start one
pipeline attempt (its asynchronous continuation settles in a later
settleStep event). -/
def stopRecordingStep (s : ServiceState) : StepResult :=
  match s.mediaRecorder with
  | none => noopResult s
  | some _ =>
    { next := { state := .processing, mediaRecorder := none, chunks := s.chunks },
      notices := [], attemptsStarted := 1, settledOutcome := none }

/-- The settlement of the pending processing attempt (lines 103-115):
run the pipeline, notify with either the success message or the caught
error message, and in the finally arm unconditionally clear the chunk
buffer and return to idle. The next state is computed identically in
the success and failure arms. -/
def settleStep (s : ServiceState) (env : PipelineEnv) : StepResult :=
  if s.state = .processing then
    let outcome := runPipeline env
    let notice :=
      match outcome with
      | .ok _ => "Voice note inserted."
      | .error e => e.message
    { next := { state := .idle, mediaRecorder := s.mediaRecorder, chunks := [] },
      notices := [notice], attemptsStarted := 0, settledOutcome := some outcome }
  else noopResult s

/-- The dataavailable listener (lines 63-67): while recording, a chunk
with positive size is appended to the buffer in arrival order. -/
def dataAvailableStep (s : ServiceState) (data : List ℕ) : StepResult :=
  if s.state = .recording ∧ 0 < data.length then
    { next := { s with chunks := s.chunks ++ [data] },
      notices := [], attemptsStarted := 0, settledOutcome := none }
  else noopResult s

/-- toggleRecording (lines 28-40): from recording, stop; from
processing, only the still-processing notice; otherwise start. -/
def toggleStep (s : ServiceState) (capabilityAvailable : Bool) : StepResult :=
  if s.state = .recording then stopRecordingStep s
  else if s.state = .processing then
    { next := s, notices := ["Already processing the previous recording."],
      attemptsStarted := 0, settledOutcome := none }
  else startRecordingStep s capabilityAvailable

/-- stopIfRecording (lines 42-46): stop only when recording. -/
def stopIfRecordingStep (s : ServiceState) : StepResult :=
  if s.state = .recording then stopRecordingStep s else noopResult s

/-- The events the service reacts to: the two public entry points, the
hardware chunk event, and the settlement of a pending attempt. -/
inductive Event where
  | toggle (capabilityAvailable : Bool)
  | stopIfRecording
  | dataAvailable (data : List ℕ)
  | settle (env : PipelineEnv)

/-- One step of the service. -/
def step (s : ServiceState) : Event → StepResult
  | .toggle cap => toggleStep s cap
  | .stopIfRecording => stopIfRecordingStep s
  | .dataAvailable d => dataAvailableStep s d
  | .settle env => settleStep s env

/-- States reachable from the initial state by event steps. -/
inductive Reachable : ServiceState → Prop where
  | init : Reachable initialState
  | next (s : ServiceState) (e : Event) : Reachable s → Reachable (step s e).next

/-- Substring containment: the needle occurs contiguously in the hay. -/
def containsText (hay needle : String) : Prop :=
  ∃ pre suf, hay = pre ++ needle ++ suf

/-- A fully configured settings record used by concrete witnesses. -/
def sampleSettings : VoiceNoteSettings :=
  { apiKey := "key", transcriptionModel := "whisper-1",
    noteModel := "gpt-4o-mini", notePrompt := "prompt" }

/-- A concrete editor used by concrete witnesses. -/
def sampleEditor : Editor :=
  { before := "before ", selection := "sel", after := " after" }

/-- A fully successful pipeline environment used by concrete witnesses. -/
def sampleEnv : PipelineEnv :=
  { settingsA := sampleSettings, settingsB := sampleSettings,
    transcription := { ok := true, bodyText := "", text := some "hello" },
    completion := { ok := true, bodyText := "", content := some "note" },
    view := some sampleEditor }

/-- A processing-state service used by concrete witnesses. -/
def sampleProcessing : ServiceState :=
  { state := .processing, mediaRecorder := none, chunks := [[1, 2]] }

/-- C1 counterexample: the identifier "gpt-5-mini " (trailing space) is
not a case-insensitive exact match of "gpt-5-mini", since lowering does
not erase the space, yet the built request omits the temperature field,
because supportsTemperature trims the identifier before comparing.
Under the claim this identifier would have to get temperature 0.2. -/
theorem supportsTemperature_trailing_space :
    jsToLower "gpt-5-mini " ≠ jsToLower "gpt-5-mini" ∧
    (buildChatBody
      { apiKey := "key", transcriptionModel := "whisper-1",
        noteModel := "gpt-5-mini ", notePrompt := "prompt" } "hi").temperature = none := by
  constructor
  · decide
  · decide

/-- C1 (corrected): the note-composition request omits the temperature
field exactly when the configured note model identifier, after trimming
surrounding whitespace, matches "gpt-5-mini" case-insensitively; for
every other identifier the temperature field is present with value
0.2. -/
theorem buildChatBody_temperature (settings : VoiceNoteSettings) (transcript : String) :
    (buildChatBody settings transcript).temperature =
      if jsToLower (jsTrim settings.noteModel) = jsToLower "gpt-5-mini" then none
      else some (0.2 : ℚ) := by
  have hlow : jsToLower "gpt-5-mini" = "gpt-5-mini" := by decide
  rw [hlow]
  unfold buildChatBody supportsTemperature
  by_cases hc : jsToLower (jsTrim settings.noteModel) = "gpt-5-mini" <;>
    simp [hc, bne]

/-- C2: whatever the outcome of the pipeline attempt (success, or a
failure of any error kind, since the environment ranges over all
possible responses, settings reads and views), settling a processing
attempt leaves the service idle with an empty chunk buffer; the
successor state is computed by the one finally arm, identical for the
success and failure branches. -/
theorem settle_returns_idle_and_clears (s : ServiceState) (env : PipelineEnv)
    (h : s.state = .processing) :
    (settleStep s env).next.state = .idle ∧ (settleStep s env).next.chunks = [] := by
  simp [settleStep, h]

/-- C2 witness: a concrete processing state and environment. -/
theorem settle_returns_idle_and_clears_witness :
    sampleProcessing.state = .processing ∧
    ((settleStep sampleProcessing sampleEnv).next.state = .idle ∧
     (settleStep sampleProcessing sampleEnv).next.chunks = []) :=
  ⟨rfl, settle_returns_idle_and_clears sampleProcessing sampleEnv rfl⟩

/-- C3: toggling while processing changes nothing, starts no pipeline
attempt and emits only the still-processing notice; moreover no step
whatsoever starts an attempt unless it departs from the recording
state, so at most one attempt is ever in flight. -/
theorem toggle_while_processing (s : ServiceState) (cap : Bool)
    (h : s.state = .processing) :
    step s (.toggle cap) =
      { next := s, notices := ["Already processing the previous recording."],
        attemptsStarted := 0, settledOutcome := none } ∧
    ∀ (s2 : ServiceState) (e : Event),
      0 < (step s2 e).attemptsStarted → s2.state = .recording := by
  constructor
  · simp [step, toggleStep, h]
  · intro s2 e he
    cases e with
    | toggle cap2 =>
      by_cases h2 : s2.state = .recording
      · exact h2
      · exfalso
        by_cases h3 : s2.state = .processing <;> cases cap2 <;>
          simp [step, toggleStep, startRecordingStep, noopResult, h2, h3] at he
    | stopIfRecording =>
      by_cases h2 : s2.state = .recording
      · exact h2
      · exfalso
        simp [step, stopIfRecordingStep, noopResult, h2] at he
    | dataAvailable d =>
      exfalso
      by_cases h2 : s2.state = .recording ∧ 0 < d.length <;>
        simp [step, dataAvailableStep, noopResult, h2] at he
    | settle env =>
      exfalso
      by_cases h2 : s2.state = .processing <;>
        simp [step, settleStep, noopResult, h2] at he

/-- C3 witness: a concrete processing state. -/
theorem toggle_while_processing_witness :
    sampleProcessing.state = .processing ∧
    (step sampleProcessing (.toggle true) =
      { next := sampleProcessing,
        notices := ["Already processing the previous recording."],
        attemptsStarted := 0, settledOutcome := none } ∧
    ∀ (s2 : ServiceState) (e : Event),
      0 < (step s2 e).attemptsStarted → s2.state = .recording) :=
  ⟨rfl, toggle_while_processing sampleProcessing true rfl⟩

/-- C9: toggling from idle without the capture capability leaves the
whole state unchanged and notifies that microphone access is missing;
with the capability it acquires a recorder, resets the buffer, enters
the recording state and emits the recording-started notice. -/
theorem toggle_from_idle (s : ServiceState) (h : s.state = .idle) :
    step s (.toggle false) =
      { next := s, notices := ["Microphone access is not available."],
        attemptsStarted := 0, settledOutcome := none } ∧
    (step s (.toggle true)).next =
      { state := .recording, mediaRecorder := some (), chunks := [] } ∧
    (step s (.toggle true)).notices = ["Recording started."] := by
  refine ⟨?_, ?_, ?_⟩ <;> simp [step, toggleStep, startRecordingStep, h]

/-- C9 witness: the initial state is idle. -/
theorem toggle_from_idle_witness :
    initialState.state = .idle ∧
    (step initialState (.toggle false) =
      { next := initialState, notices := ["Microphone access is not available."],
        attemptsStarted := 0, settledOutcome := none } ∧
    (step initialState (.toggle true)).next =
      { state := .recording, mediaRecorder := some (), chunks := [] } ∧
    (step initialState (.toggle true)).notices = ["Recording started."]) :=
  ⟨rfl, toggle_from_idle initialState rfl⟩

/-- C8: in every reachable service state the state is recording exactly
when a media recorder handle is held. The model, like the code, keeps
the handle in one optional field and the audio buffer in one list
field, so at most one of each exists by construction. -/
theorem recording_iff_recorder (s : ServiceState) (h : Reachable s) :
    s.state = .recording ↔ s.mediaRecorder.isSome := by
  induction h with
  | init => simp [initialState]
  | next s e hr ih =>
    cases e with
    | toggle cap =>
      by_cases h1 : s.state = .recording
      · obtain ⟨u, hu⟩ := Option.isSome_iff_exists.mp (ih.mp h1)
        simp [step, toggleStep, stopRecordingStep, h1, hu]
      · by_cases h2 : s.state = .processing
        · simpa [step, toggleStep, h1, h2] using ih
        · cases cap with
          | false =>
            simpa [step, toggleStep, startRecordingStep, h1, h2] using ih
          | true =>
            simp [step, toggleStep, startRecordingStep, h1, h2]
    | stopIfRecording =>
      by_cases h1 : s.state = .recording
      · obtain ⟨u, hu⟩ := Option.isSome_iff_exists.mp (ih.mp h1)
        simp [step, stopIfRecordingStep, stopRecordingStep, h1, hu]
      · simpa [step, stopIfRecordingStep, noopResult, h1] using ih
    | dataAvailable d =>
      by_cases h1 : s.state = .recording ∧ 0 < d.length
      · simpa [step, dataAvailableStep, h1] using ih
      · simpa [step, dataAvailableStep, noopResult, h1] using ih
    | settle env =>
      by_cases h1 : s.state = .processing
      · have hnone : s.mediaRecorder.isSome = false := by
          rcases hs : s.mediaRecorder.isSome with _ | _
          · rfl
          · have hrec := ih.mpr hs
            rw [hrec] at h1
            exact absurd h1 (by simp)
        simp [step, settleStep, h1, hnone]
      · simpa [step, settleStep, noopResult, h1] using ih

/-- C8 witness: the invariant evaluated at the initial state and at the
reachable state after one successful toggle into recording. -/
theorem recording_iff_recorder_witness :
    (initialState.state = .recording ↔ initialState.mediaRecorder.isSome) ∧
    ((step initialState (.toggle true)).next.state = .recording ↔
      (step initialState (.toggle true)).next.mediaRecorder.isSome) :=
  ⟨recording_iff_recorder initialState .init,
   recording_iff_recorder (step initialState (.toggle true)).next
     (.next initialState (.toggle true) .init)⟩

/-- C4: with a configured key and transcription model, a transport-ok
transcription response whose text field is "  hello world  " yields the
trimmed transcript "hello world"; an empty or absent text field fails
with the empty-result error, whatever the response body text. -/
theorem transcribe_trims_and_rejects_empty (settings : VoiceNoteSettings) (b : String)
    (hk : settings.apiKey ≠ "") (hm : settings.transcriptionModel ≠ "") :
    transcribeAudio settings { ok := true, bodyText := b, text := some "  hello world  " } =
      .ok "hello world" ∧
    transcribeAudio settings { ok := true, bodyText := b, text := some "" } =
      .error (.emptyResult "Transcription returned no text.") ∧
    transcribeAudio settings { ok := true, bodyText := b, text := none } =
      .error (.emptyResult "Transcription returned no text.") := by
  have h1 : jsTrim "  hello world  " = "hello world" := by decide
  have h2 : jsTrim "" = "" := by decide
  refine ⟨?_, ?_, ?_⟩ <;>
    · unfold transcribeAudio
      rw [if_neg hk, if_neg hm]
      simp [h1, h2]

/-- C4 witness: concrete settings with key and model configured. -/
theorem transcribe_trims_and_rejects_empty_witness :
    sampleSettings.apiKey ≠ "" ∧ sampleSettings.transcriptionModel ≠ "" ∧
    (transcribeAudio sampleSettings { ok := true, bodyText := "b", text := some "  hello world  " } =
      .ok "hello world" ∧
    transcribeAudio sampleSettings { ok := true, bodyText := "b", text := some "" } =
      .error (.emptyResult "Transcription returned no text.") ∧
    transcribeAudio sampleSettings { ok := true, bodyText := "b", text := none } =
      .error (.emptyResult "Transcription returned no text.")) :=
  ⟨by decide, by decide,
   transcribe_trims_and_rejects_empty sampleSettings "b" (by decide) (by decide)⟩

/-- C6: with an active editor, delivery replaces the selection with the
composed note text plus exactly one appended line break, as on the
concrete note "Title\n- point"; with no active editor it fails with the
no-editable-target error, and nothing in the service retains the note. -/
theorem insertNote_appends_newline (ed : Editor) (note : String) :
    insertNote (some ed) note =
      .ok { before := ed.before ++ (note ++ "\n"), selection := "", after := ed.after } ∧
    insertNote (some ed) "Title\n- point" =
      .ok { before := ed.before ++ "Title\n- point\n", selection := "", after := ed.after } ∧
    insertNote none note =
      .error (.noEditableTarget "Open a note to insert the transcript.") := by
  refine ⟨rfl, ?_, rfl⟩
  have h : "Title\n- point" ++ "\n" = "Title\n- point\n" := by decide
  simp [insertNote, replaceSelection, h]

/-- C10: a transport-ok composition response whose first-choice content
is non-empty but all whitespace passes the raw non-emptiness check and
is trimmed afterwards, so Stage B succeeds with the empty string and
delivery inserts only the single appended line break; by contrast a
raw empty content fails with the empty-result error. -/
theorem whitespace_note_succeeds_empty (settings : VoiceNoteSettings) (b c : String)
    (hk : settings.apiKey ≠ "") (hm : settings.noteModel ≠ "")
    (hc : c ≠ "") (hw : jsTrim c = "") (ed : Editor) :
    generateNote settings { ok := true, bodyText := b, content := some c } = .ok "" ∧
    insertNote (some ed) "" =
      .ok { before := ed.before ++ "\n", selection := "", after := ed.after } ∧
    generateNote settings { ok := true, bodyText := b, content := some "" } =
      .error (.emptyResult "Note creation returned no content.") := by
  refine ⟨?_, ?_, ?_⟩
  · unfold generateNote
    rw [if_neg hk, if_neg hm]
    simp [hc, hw]
  · have h : ("" : String) ++ "\n" = "\n" := by decide
    simp [insertNote, replaceSelection, h]
  · unfold generateNote
    rw [if_neg hk, if_neg hm]
    simp

/-- C10 witness: the three-space content at concrete settings. -/
theorem whitespace_note_succeeds_empty_witness :
    sampleSettings.apiKey ≠ "" ∧ sampleSettings.noteModel ≠ "" ∧
    ("   " : String) ≠ "" ∧ jsTrim "   " = "" ∧
    (generateNote sampleSettings { ok := true, bodyText := "b", content := some "   " } = .ok "" ∧
    insertNote (some sampleEditor) "" =
      .ok { before := sampleEditor.before ++ "\n", selection := "",
            after := sampleEditor.after } ∧
    generateNote sampleSettings { ok := true, bodyText := "b", content := some "" } =
      .error (.emptyResult "Note creation returned no content.")) :=
  ⟨by decide, by decide, by decide, by decide,
   whitespace_note_succeeds_empty sampleSettings "b" "   "
     (by decide) (by decide) (by decide) (by decide) sampleEditor⟩

/-- A pipeline environment whose transcription call fails at the
transport level, used by concrete witnesses. -/
def failTransEnv : PipelineEnv :=
  { settingsA := sampleSettings, settingsB := sampleSettings,
    transcription := { ok := false, bodyText := "boom", text := none },
    completion := { ok := true, bodyText := "", content := some "note" },
    view := some sampleEditor }

/-- A pipeline environment whose composition call fails at the
transport level after a successful transcription, used by concrete
witnesses. -/
def failNoteEnv : PipelineEnv :=
  { settingsA := sampleSettings, settingsB := sampleSettings,
    transcription := { ok := true, bodyText := "", text := some "hello" },
    completion := { ok := false, bodyText := "kaboom", content := none },
    view := some sampleEditor }

/-- C5: a non-success transport response fails the attempt with a
notice whose text contains the response body. When the transcription
response is non-success, the pipeline result is the transcription
failure whatever the composition response and the view, so Stage B and
delivery never run; when transcription succeeded and the composition
response is non-success, the result is the composition failure whatever
the view, so delivery never runs. In both cases the settle notice is
the failure message, which contains the body text. -/
theorem remote_failure_short_circuits (env : PipelineEnv) (s : ServiceState)
    (hs : s.state = .processing) :
    (env.settingsA.apiKey ≠ "" → env.settingsA.transcriptionModel ≠ "" →
     env.transcription.ok = false →
      (∀ (co : CompletionResponse) (view : Option Editor),
        runPipeline { env with completion := co, view := view } =
          .error (.remoteCallFailed ("Transcription failed: " ++ env.transcription.bodyText))) ∧
      (settleStep s env).notices =
        ["Transcription failed: " ++ env.transcription.bodyText] ∧
      containsText ("Transcription failed: " ++ env.transcription.bodyText)
        env.transcription.bodyText) ∧
    ((∃ t, transcribeAudio env.settingsA env.transcription = Except.ok t) →
     env.settingsB.apiKey ≠ "" → env.settingsB.noteModel ≠ "" →
     env.completion.ok = false →
      (∀ view : Option Editor,
        runPipeline { env with view := view } =
          .error (.remoteCallFailed ("Note creation failed: " ++ env.completion.bodyText))) ∧
      (settleStep s env).notices =
        ["Note creation failed: " ++ env.completion.bodyText] ∧
      containsText ("Note creation failed: " ++ env.completion.bodyText)
        env.completion.bodyText) := by
  constructor
  · intro hk hm hok
    have hA : transcribeAudio env.settingsA env.transcription =
        .error (.remoteCallFailed ("Transcription failed: " ++ env.transcription.bodyText)) := by
      unfold transcribeAudio
      rw [if_neg hk, if_neg hm, if_pos hok]
    refine ⟨?_, ?_, "Transcription failed: ", "", by simp⟩
    · intro co view
      unfold runPipeline
      simp [hA]
    · simp [settleStep, hs, runPipeline, hA, PipelineError.message]
  · rintro ⟨t, ht⟩ hk hm hok
    have hB : generateNote env.settingsB env.completion =
        .error (.remoteCallFailed ("Note creation failed: " ++ env.completion.bodyText)) := by
      unfold generateNote
      rw [if_neg hk, if_neg hm, if_pos hok]
    refine ⟨?_, ?_, "Note creation failed: ", "", by simp⟩
    · intro view
      unfold runPipeline
      simp [ht, hB]
    · simp [settleStep, hs, runPipeline, ht, hB, PipelineError.message]

/-- C5 witness: both failure scenarios at concrete environments with
concrete body texts. -/
theorem remote_failure_short_circuits_witness :
    ((∀ (co : CompletionResponse) (view : Option Editor),
        runPipeline { failTransEnv with completion := co, view := view } =
          .error (.remoteCallFailed ("Transcription failed: " ++ failTransEnv.transcription.bodyText))) ∧
      (settleStep sampleProcessing failTransEnv).notices =
        ["Transcription failed: " ++ failTransEnv.transcription.bodyText] ∧
      containsText ("Transcription failed: " ++ failTransEnv.transcription.bodyText)
        failTransEnv.transcription.bodyText) ∧
    ((∀ view : Option Editor,
        runPipeline { failNoteEnv with view := view } =
          .error (.remoteCallFailed ("Note creation failed: " ++ failNoteEnv.completion.bodyText))) ∧
      (settleStep sampleProcessing failNoteEnv).notices =
        ["Note creation failed: " ++ failNoteEnv.completion.bodyText] ∧
      containsText ("Note creation failed: " ++ failNoteEnv.completion.bodyText)
        failNoteEnv.completion.bodyText) :=
  ⟨(remote_failure_short_circuits failTransEnv sampleProcessing rfl).1
      (by decide) (by decide) (by decide),
   (remote_failure_short_circuits failNoteEnv sampleProcessing rfl).2
      ⟨"hello", by decide⟩ (by decide) (by decide) (by decide)⟩

/-- The settings record after a hypothetical mid-cycle edit clearing
the API key, used to separate per-stage reads from a single read. -/
def settingsMidEdit : VoiceNoteSettings :=
  { apiKey := "", transcriptionModel := "whisper-1",
    noteModel := "gpt-4o-mini", notePrompt := "prompt" }

/-- An environment whose two settings reads differ: Stage A sees the
fully configured record, Stage B sees the record with the key cleared,
as happens when settings are edited while Stage A awaits its
response. -/
def midEditEnv : PipelineEnv :=
  { settingsA := sampleSettings, settingsB := settingsMidEdit,
    transcription := { ok := true, bodyText := "", text := some "hello" },
    completion := { ok := true, bodyText := "", content := some "note" },
    view := some sampleEditor }

/-- C7 counterexample: each stage performs its own settings read, so
when the settings change between the Stage A read and the Stage B read
the cycle uses two different configurations: with the configuration
valid at cycle start the single-read pipeline of the claim succeeds,
while the code pipeline fails inside Stage B on the cleared key. -/
theorem settings_single_read_counterexample :
    runPipeline midEditEnv ≠
      runPipelineSingleRead sampleSettings midEditEnv.transcription
        midEditEnv.completion midEditEnv.view ∧
    runPipeline midEditEnv =
      .error (.configurationMissing "Add your OpenAI API key in settings.") ∧
    runPipelineSingleRead sampleSettings midEditEnv.transcription
        midEditEnv.completion midEditEnv.view =
      .ok { before := sampleEditor.before ++ ("note" ++ "\n"), selection := "",
            after := sampleEditor.after } := by
  refine ⟨?_, ?_, ?_⟩ <;> decide

/-- C7 (corrected): the configuration is read afresh from the settings
collaborator inside each stage, once for Stage A and once for Stage B,
rather than once per cycle; nothing is cached across cycles, so edits
between recordings take effect on the next cycle, and whenever the two
reads of a cycle agree the cycle behaves exactly as the single-read
pipeline of the design document. -/
theorem pipeline_reads_settings_per_stage (env : PipelineEnv)
    (h : env.settingsA = env.settingsB) :
    runPipeline env =
      runPipelineSingleRead env.settingsA env.transcription env.completion env.view := by
  cases env with
  | mk sA sB tr co view =>
    cases h
    rfl

/-- C7 witness: a cycle whose two reads agree. -/
theorem pipeline_reads_settings_per_stage_witness :
    sampleEnv.settingsA = sampleEnv.settingsB ∧
    runPipeline sampleEnv =
      runPipelineSingleRead sampleEnv.settingsA sampleEnv.transcription
        sampleEnv.completion sampleEnv.view :=
  ⟨rfl, pipeline_reads_settings_per_stage sampleEnv rfl⟩

end VoiceNote
